import Mathlib

/-!
Verification development for `query_colors_db.py`, a one-shot diagnostic
tool that opens a SQLite database file, runs a fixed sequence of read-only
queries against the table `dominant_colors`, and prints a report.

The script is embedded shallowly: the observable behaviour of one run is a
trace of events (console prints, opening the connection, executing a query,
closing the connection).  Fallible Python constructs (the `try`/`except`
blocks, `datetime.fromtimestamp`, `json.loads`, division) are modelled with
`Option`/`Except`; machine reals never appear — Python's float formatting
(`:.1f`, `:.2f`) is modelled as exact-rational rounding half to even,
carried in scaled integer units (deci-percent, centi-KB).
-/

namespace AuroraColors

/-- Values stored in a SQLite column, as surfaced to Python by `sqlite3`:
`NULL` becomes `None`, integers become `int`, text becomes `str`. -/
inductive Value where
  | vNull
  | vInt (i : Int)
  | vText (s : String)
deriving DecidableEq, Repr

/-- One row of the table `dominant_colors`, with the five columns the
script selects.  `colors` is `none` when the column is `NULL`, otherwise
the stored text. -/
structure Row where
  file_path : String
  status : String
  created_at : Value
  updated_at : Value
  colors : Option String
deriving DecidableEq, Repr

/-- The database contents visible to the script: the catalog (table names
with their column name/declared-type pairs, as returned by
`sqlite_master` and `PRAGMA table_info`), and the rows of
`dominant_colors` — `none` models the table being absent, in which case
the first query touching it raises `sqlite3.OperationalError`. -/
structure DB where
  tables : List (String × List (String × String))
  dominant : Option (List Row)
deriving DecidableEq, Repr

/-- The filesystem/environment state one run observes: the path argument,
whether `os.path.exists` holds, the byte size `os.path.getsize` returns,
and the result of `sqlite3.connect` (`Except.error msg` models the
connection itself raising `sqlite3.Error`). -/
structure FS where
  path : String
  ex : Bool
  size : Nat
  db : Except String DB
deriving Repr

/-- JSON values, as produced by Python's `json.loads`: objects keep their
key/value pairs in textual order. -/
inductive Json where
  | jnull
  | jbool (b : Bool)
  | jnum (n : Int)
  | jstr (s : String)
  | jarr (elems : List Json)
  | jobj (fields : List (String × Json))
deriving Repr

mutual

/-- Model of Python `repr` on `json.loads` results: ints in decimal,
`True`/`False`/`None`, strings in single quotes (escape sequences inside
string contents are not modelled), lists bracketed and dicts braced with
comma-separated entries. -/
def pyRepr : Json → String
  | .jnull => "None"
  | .jbool true => "True"
  | .jbool false => "False"
  | .jnum n => toString n
  | .jstr s => "'" ++ s ++ "'"
  | .jarr xs => "[" ++ pyReprElems xs ++ "]"
  | .jobj fs => "\x7b" ++ pyReprFields fs ++ "\x7d"

/-- Comma-separated reprs of list elements. -/
def pyReprElems : List Json → String
  | [] => ""
  | [x] => pyRepr x
  | x :: xs => pyRepr x ++ ", " ++ pyReprElems xs

/-- Comma-separated reprs of dict entries. -/
def pyReprFields : List (String × Json) → String
  | [] => ""
  | [(k, v)] => "'" ++ k ++ "': " ++ pyRepr v
  | (k, v) :: fs => "'" ++ k ++ "': " ++ pyRepr v ++ ", " ++ pyReprFields fs

end

/-- Model of Python `str` as applied by an f-string to a `json.loads`
result: strings render as themselves, every other value via `repr`. -/
def pyStr : Json → String
  | .jstr s => s
  | v => pyRepr v

/-- Everything the script ever prints, one constructor per `print` site.
Numeric payloads carry the exact values the f-strings interpolate;
`fileSizeKB` carries the size in centi-KB (two decimals) and `statLine`
carries the percentage in deci-percent (one decimal), both obtained by
round-half-to-even, the rounding Python's fixed-point float formatting
applies.  `rawColors` carries the truncated text including the trailing
ellipsis the f-string appends. -/
inductive Line where
  | notFound (path : String)
  | header (path : String)
  | separator
  | schemaHeader
  | tableName (t : String)
  | columnInfo (name ty : String)
  | totalCount (n : Nat)
  | statusHeader
  | statusCount (status : String) (n : Nat)
  | fileSizeKB (centiKB : Nat)
  | recentHeader
  | recentFile (p : String)
  | recentStatus (s : String)
  | createdTime (t : Int)
  | updatedTime (t : Int)
  | colorCount (n : Nat)
  | primaryHex (v : String)
  | rawColors (s : String)
  | noColorData
  | statHeader
  | statLine (label : String) (count : Nat) (deciPct : Nat)
  | dbError (msg : String)
  | unknownError (msg : String)
deriving DecidableEq, Repr

/-- Observable events of one run: console output, opening the connection,
executing a query (payload: the SQL text), closing the connection. -/
inductive Ev where
  | print (l : Line)
  | openDb
  | query (q : String)
  | closeDb
deriving DecidableEq, Repr

/-- Exceptions the body of the script can raise, classified the way the
two `except` clauses at the top level classify them: `sqlite3.Error`
versus every other `Exception`. -/
inductive PyErr where
  | sqliteErr (msg : String)
  | otherErr (msg : String)
deriving DecidableEq, Repr

/-! ### Model of `json.loads`

A fueled recursive-descent parser for the JSON subset this development
exercises (`null`, `true`, `false`, integers, strings without escape
sequences, arrays, objects).  `json.loads` rejects trailing garbage, so
`json_loads` demands that only whitespace remain. -/

/-- Drop leading JSON whitespace. -/
def skipWs : List Char → List Char
  | [] => []
  | c :: cs =>
    if c = ' ' ∨ c = '\n' ∨ c = '\t' ∨ c = '\r' then skipWs cs else c :: cs

/-- Parse the body of a string literal (the opening quote already
consumed) up to the closing quote. -/
def parseStrChars : Nat → List Char → Option (List Char × List Char)
  | 0, _ => none
  | _ + 1, [] => none
  | fuel + 1, c :: cs =>
    if c = '"' then some ([], cs)
    else
      match parseStrChars fuel cs with
      | some (s, rest) => some (c :: s, rest)
      | none => none

/-- Numeric value of a digit run. -/
def digitsVal (ds : List Char) : Nat :=
  ds.foldl (fun acc c => acc * 10 + (c.toNat - '0'.toNat)) 0

mutual

/-- Parse one JSON value. -/
def parseValue : Nat → List Char → Option (Json × List Char)
  | 0, _ => none
  | fuel + 1, cs0 =>
    match skipWs cs0 with
    | 'n' :: 'u' :: 'l' :: 'l' :: rest => some (.jnull, rest)
    | 't' :: 'r' :: 'u' :: 'e' :: rest => some (.jbool true, rest)
    | 'f' :: 'a' :: 'l' :: 's' :: 'e' :: rest => some (.jbool false, rest)
    | '"' :: rest =>
      match parseStrChars fuel rest with
      | some (s, rest2) => some (.jstr (String.mk s), rest2)
      | none => none
    | '[' :: rest =>
      match skipWs rest with
      | ']' :: rest2 => some (.jarr [], rest2)
      | _ =>
        match parseElems fuel rest with
        | some (xs, rest2) => some (.jarr xs, rest2)
        | none => none
    | '{' :: rest =>
      match skipWs rest with
      | '}' :: rest2 => some (.jobj [], rest2)
      | _ =>
        match parseMembers fuel rest with
        | some (fs, rest2) => some (.jobj fs, rest2)
        | none => none
    | '-' :: rest =>
      match rest.span Char.isDigit with
      | ([], _) => none
      | (ds, rest2) => some (.jnum (-(digitsVal ds : Int)), rest2)
    | c :: rest =>
      if c.isDigit then
        match (c :: rest).span Char.isDigit with
        | (ds, rest2) => some (.jnum (digitsVal ds), rest2)
      else none
    | [] => none

/-- Parse the elements of a non-empty array (the opening bracket already
consumed), including the closing bracket. -/
def parseElems : Nat → List Char → Option (List Json × List Char)
  | 0, _ => none
  | fuel + 1, cs =>
    match parseValue fuel cs with
    | none => none
    | some (j, rest) =>
      match skipWs rest with
      | ',' :: rest2 =>
        match parseElems fuel rest2 with
        | some (xs, rest3) => some (j :: xs, rest3)
        | none => none
      | ']' :: rest2 => some ([j], rest2)
      | _ => none

/-- Parse the members of a non-empty object (the opening brace already
consumed), including the closing brace. -/
def parseMembers : Nat → List Char → Option (List (String × Json) × List Char)
  | 0, _ => none
  | fuel + 1, cs =>
    match skipWs cs with
    | '"' :: rest =>
      match parseStrChars fuel rest with
      | none => none
      | some (k, rest2) =>
        match skipWs rest2 with
        | ':' :: rest3 =>
          match parseValue fuel rest3 with
          | none => none
          | some (v, rest4) =>
            match skipWs rest4 with
            | ',' :: rest5 =>
              match parseMembers fuel rest5 with
              | some (fs, rest6) => some ((String.mk k, v) :: fs, rest6)
              | none => none
            | '}' :: rest5 => some ([(String.mk k, v)], rest5)
            | _ => none
        | _ => none
    | _ => none

end

/-- Model of Python's `json.loads` on the subset above: parse one value
and demand that nothing but whitespace follow.  The fuel bound suffices
because every two units of fuel consume at least one character. -/
def json_loads (s : String) : Option Json :=
  match parseValue (2 * s.length + 8) s.data with
  | some (j, rest) => if skipWs rest = [] then some j else none
  | none => none

/-! ### Python operations the colour block applies to a parsed value -/

/-- Model of Python `len` on a `json.loads` result: defined for lists,
dicts and strings, a `TypeError` (`none`) otherwise. -/
def pyLen : Json → Option Nat
  | .jarr xs => some xs.length
  | .jobj fs => some fs.length
  | .jstr s => some s.length
  | _ => none

/-- Model of Python truthiness on a `json.loads` result. -/
def pyTruthy : Json → Bool
  | .jarr xs => !xs.isEmpty
  | .jobj fs => !fs.isEmpty
  | .jstr s => !(s = "")
  | .jnum n => !(n = 0)
  | .jbool b => b
  | .jnull => false

/-- Model of Python `x[0]` on a `json.loads` result: the head of a list,
the first character of a string (as a one-character string), and a failure
(`none`) otherwise — an empty list raises `IndexError`, a dict raises
`KeyError` because JSON object keys are strings so the integer key `0` is
absent, and other values raise `TypeError`. -/
def pyIndex0 : Json → Option Json
  | .jarr (x :: _) => some x
  | .jstr s =>
    match s.data with
    | c :: _ => some (.jstr (String.mk [c]))
    | [] => none
  | _ => none

/-- Model of Python `x.get('hex', 'N/A')`: defined only on dicts (every
other value raises `AttributeError`, `none` here); on a dict, the value of
the first `"hex"` entry, defaulting to the string `"N/A"`. -/
def pyGetHex : Json → Option Json
  | .jobj fields => some ((fields.lookup "hex").getD (.jstr "N/A"))
  | _ => none

/-! ### Numeric formatting

Python formats `db_size / 1024` with `:.2f` and each percentage with
`:.1f`; fixed-point formatting rounds half to even.  The model carries
these printed numbers in scaled integer units (centi-KB, deci-percent)
obtained by exact-rational rounding half to even. -/

/-- Round `num / den` to the nearest integer, half to even. -/
def rhe (num den : Nat) : Nat :=
  let q := num / den
  let r := num % den
  if 2 * r < den then q
  else if 2 * r > den then q + 1
  else if q % 2 = 0 then q else q + 1

/-! ### Queries over the `dominant_colors` rows -/

/-- Result of `SELECT COUNT(*) FROM dominant_colors WHERE status = s`. -/
def countStatus (rows : List Row) (s : String) : Nat :=
  (rows.filter (fun r => r.status == s)).length

/-- The distinct `status` values of `GROUP BY status`, in first-occurrence
order (SQLite leaves the group order unspecified absent an `ORDER BY`). -/
def statusList (rows : List Row) : List String :=
  (rows.map Row.status).eraseDups

/-- SQLite comparison order on stored values: `NULL` sorts below every
number and every number below every text; numbers compare numerically and
texts by binary collation. -/
def valLe (a b : Value) : Bool :=
  match a, b with
  | .vInt i, .vInt j => decide (i ≤ j)
  | .vText s, .vText t => decide (s ≤ t)
  | .vNull, _ => true
  | _, .vNull => false
  | .vInt _, .vText _ => true
  | .vText _, .vInt _ => false

/-- Row order realised by `ORDER BY updated_at DESC`: `r1` precedes `r2`
when its `updated_at` is at least as large. -/
def rowGe (r1 r2 : Row) : Bool :=
  valLe r2.updated_at r1.updated_at

/-- Result rows of
`SELECT ... FROM dominant_colors ORDER BY updated_at DESC LIMIT 5`:
some permutation of the rows sorted descending by `updated_at` (ties in
unspecified order), truncated to 5. -/
def recentRows (rows : List Row) : List Row :=
  (rows.insertionSort fun a b => rowGe a b = true).take 5

/-! ### Per-record processing -/

/-- The integer stored in a column value, defaulting to `0`; used only to
state what a successful `fromtimestamp` conversion returns. -/
def Value.asInt : Value → Int
  | .vInt i => i
  | _ => 0

/-- Model of `datetime.fromtimestamp` as used on a column value: an
integer converts (the local-time string rendering is abstracted away, the
event carries the epoch value), `NULL` and text raise `TypeError`, which
`except sqlite3.Error` does not catch. -/
def fromtimestamp : Value → Except PyErr Int
  | .vInt i => .ok i
  | .vNull => .error (.otherErr "an integer is required (got type NoneType)")
  | .vText _ => .error (.otherErr "an integer is required (got type str)")

/-- Whether both timestamp columns of a row hold integers, so that the
two `fromtimestamp` calls of the record loop succeed. -/
def goodTs (r : Row) : Bool :=
  match r.created_at, r.updated_at with
  | .vInt _, .vInt _ => true
  | _, _ => false

/-- Output of the colour block for one record (source lines 74–83).  The
`try` around the block recovers every failure — of `json.loads`, of
`len`, of indexing, of `.get` — into the truncated raw display; prints
that already happened before the failing operation remain. -/
def colorLines (colors : Option String) : List Line :=
  match colors with
  | none => [.noColorData]
  | some s =>
    if s = "" ∨ s = "[]" then [.noColorData]
    else
      match json_loads s with
      | none => [.rawColors (s.take 50 ++ "...")]
      | some j =>
        match pyLen j with
        | none => [.rawColors (s.take 50 ++ "...")]
        | some n =>
          if pyTruthy j then
            match pyIndex0 j with
            | none => [.colorCount n, .rawColors (s.take 50 ++ "...")]
            | some x =>
              match pyGetHex x with
              | none => [.colorCount n, .rawColors (s.take 50 ++ "...")]
              | some v => [.colorCount n, .primaryHex (pyStr v)]
          else [.colorCount n]

/-- Events of one loop iteration over a recent record (source lines
65–83), with the exception it raises, if any: both timestamps convert
before anything is printed, then the four info lines and the colour block
follow. -/
def recordEvents (r : Row) : List Ev × Option PyErr :=
  match fromtimestamp r.created_at with
  | .error e => ([], some e)
  | .ok c =>
    match fromtimestamp r.updated_at with
    | .error e => ([], some e)
    | .ok u =>
      (([Line.recentFile r.file_path, Line.recentStatus r.status,
         Line.createdTime c, Line.updatedTime u] ++ colorLines r.colors).map Ev.print,
       none)

/-- The record loop: iterations run in order until one raises. -/
def processRecords : List Row → List Ev × Option PyErr
  | [] => ([], none)
  | r :: rs =>
    match recordEvents r with
    | (evs, some e) => (evs, some e)
    | (evs, none) =>
      let (evs2, err) := processRecords rs
      (evs ++ evs2, err)

/-! ### The report -/

/-- SQL text of the catalog query. -/
def masterSql : String := "SELECT name FROM sqlite_master WHERE type='table';"

/-- SQL text of the total-count query. -/
def countSql : String := "SELECT COUNT(*) FROM dominant_colors"

/-- SQL text of the per-status tally query. -/
def groupSql : String := "SELECT status, COUNT(*) FROM dominant_colors GROUP BY status"

/-- SQL text of the recent-records query. -/
def recentSql : String :=
  "SELECT file_path, status, created_at, updated_at, colors FROM dominant_colors ORDER BY updated_at DESC LIMIT 5"

/-- SQL text of one `WHERE status = ...` count query. -/
def whereSql (s : String) : String :=
  "SELECT COUNT(*) FROM dominant_colors WHERE status = '" ++ s ++ "'"

/-- Events of the schema listing (source lines 27–37): print the section
header, query the catalog, then per table print its name, query its
columns and print each column. -/
def schemaEvents (d : DB) : List Ev :=
  Ev.print .schemaHeader :: Ev.query masterSql ::
    (d.tables.flatMap fun t =>
      Ev.print (.tableName t.1) :: Ev.query ("PRAGMA table_info(" ++ t.1 ++ ");") ::
        t.2.map fun c => Ev.print (.columnInfo c.1 c.2))

/-- Events of the success-rate section (source lines 85–98), with the
exception it raises: the three count queries and the section header
always happen; each percentage line divides by the total, so a zero total
raises `ZeroDivisionError` before the first percentage line prints. -/
def successEvents (rows : List Row) : List Ev × Option PyErr :=
  let total := rows.length
  let qs := [Ev.query (whereSql "extracted"), Ev.query (whereSql "pending"),
             Ev.query (whereSql "error"), Ev.print .statHeader]
  if total = 0 then
    (qs, some (.otherErr "division by zero"))
  else
    (qs ++
      [Ev.print (.statLine "extracted" (countStatus rows "extracted")
        (rhe (countStatus rows "extracted" * 1000) total)),
       Ev.print (.statLine "pending" (countStatus rows "pending")
        (rhe (countStatus rows "pending" * 1000) total)),
       Ev.print (.statLine "error" (countStatus rows "error")
        (rhe (countStatus rows "error" * 1000) total))],
     none)

/-- Events of steps 2–5 of the report (total count, status breakdown,
file size, recent-records header and query; source lines 39–63), which
cannot raise once the table exists. -/
def preEvents (d : DB) (rows : List Row) (size : Nat) : List Ev :=
  schemaEvents d ++
    [Ev.query countSql, Ev.print (.totalCount rows.length),
     Ev.query groupSql, Ev.print .statusHeader] ++
    ((statusList rows).map fun s => Ev.print (.statusCount s (countStatus rows s))) ++
    [Ev.print (.fileSizeKB (rhe (size * 100) 1024)),
     Ev.print .recentHeader, Ev.query recentSql]

/-- Events of the whole `try` body (source lines 22–100) with the
exception it raises, if any: when `dominant_colors` is absent the
total-count query raises `sqlite3.OperationalError`; otherwise the record
loop and then the success-rate section may raise; on full success the
connection is closed. -/
def bodyEvents (d : DB) (size : Nat) : List Ev × Option PyErr :=
  match d.dominant with
  | none =>
    (schemaEvents d ++ [Ev.query countSql],
     some (.sqliteErr "no such table: dominant_colors"))
  | some rows =>
    let pre := preEvents d rows size
    match processRecords (recentRows rows) with
    | (recEvs, some e) => (pre ++ recEvs, some e)
    | (recEvs, none) =>
      match successEvents rows with
      | (sEvs, some e) => (pre ++ recEvs ++ sEvs, some e)
      | (sEvs, none) => (pre ++ recEvs ++ sEvs ++ [Ev.closeDb], none)

/-- The whole tool (source lines 11–105): existence check, then header
prints, then the `try` body under the two `except` clauses —
`sqlite3.Error` prints the database-error line, any other exception the
unknown-error line, and neither propagates (the function is total). -/
def query_colors_db (fs : FS) : List Ev :=
  if fs.ex = false then [Ev.print (.notFound fs.path)]
  else
    Ev.print (.header fs.path) :: Ev.print .separator ::
      match fs.db with
      | .error m => [Ev.print (.dbError m)]
      | .ok d =>
        Ev.openDb ::
          match bodyEvents d fs.size with
          | (evs, none) => evs
          | (evs, some (.sqliteErr m)) => evs ++ [Ev.print (.dbError m)]
          | (evs, some (.otherErr m)) => evs ++ [Ev.print (.unknownError m)]

/-! ### Trace observers used by the theorems -/

/-- The path a recent-record file line prints, if the event is one. -/
def fileOfEv : Ev → Option String
  | .print (.recentFile p) => some p
  | _ => none

/-- The file paths printed in the recent-records section, in order. -/
def filePrints (evs : List Ev) : List String :=
  evs.filterMap fileOfEv

/-- Whether an event is a truncated raw-colour fallback print. -/
def isRaw : Ev → Bool
  | .print (.rawColors _) => true
  | _ => false

/-- Whether an event is a primary-hex print. -/
def isHex : Ev → Bool
  | .print (.primaryHex _) => true
  | _ => false

/-- Whether an event is a percentage line of the success-rate section. -/
def isStat : Ev → Bool
  | .print (.statLine _ _ _) => true
  | _ => false

/-- Whether the trace contains a truncated raw-colour fallback print. -/
def hasRawPrint (evs : List Ev) : Bool :=
  evs.any isRaw

/-- Whether the trace contains a primary-hex print. -/
def hasHexPrint (evs : List Ev) : Bool :=
  evs.any isHex

/-- Whether the trace contains a percentage line of the success-rate
section. -/
def hasStatLine (evs : List Ev) : Bool :=
  evs.any isStat

/-- The print lines that can appear inside one recent-record iteration. -/
def recKind : Line → Bool
  | .recentFile _ => true
  | .recentStatus _ => true
  | .createdTime _ => true
  | .updatedTime _ => true
  | .colorCount _ => true
  | .primaryHex _ => true
  | .rawColors _ => true
  | .noColorData => true
  | _ => false

/-! ### Concrete inputs for witnesses and counterexamples -/

/-- A database whose `dominant_colors` table exists but holds no rows. -/
def dbEmpty : DB :=
  { tables := [("dominant_colors", [("file_path", "TEXT"), ("status", "TEXT")])],
    dominant := some [] }

/-- An existing 2048-byte database file over `dbEmpty`. -/
def fsEmpty : FS :=
  { path := "colors.db", ex := true, size := 2048, db := .ok dbEmpty }

/-- A path that does not resolve to an existing file. -/
def fsMissing : FS :=
  { path := "C:/missing/colors.db", ex := false, size := 0, db := .ok dbEmpty }

/-- A well-formed row: extracted, one colour. -/
def rowA : Row :=
  { file_path := "a.png", status := "extracted", created_at := .vInt 100,
    updated_at := .vInt 400, colors := some "[\x7b\"hex\":\"#FF0000\"\x7d]" }

/-- A well-formed row whose colour text is not valid JSON. -/
def rowB : Row :=
  { file_path := "b.png", status := "pending", created_at := .vInt 100,
    updated_at := .vInt 300, colors := some "not valid json" }

/-- A well-formed row with no colour data. -/
def rowC : Row :=
  { file_path := "c.png", status := "error", created_at := .vInt 100,
    updated_at := .vInt 200, colors := none }

/-- Three well-formed rows, one per status. -/
def rowsW : List Row := [rowA, rowB, rowC]

/-- An existing database file over the three well-formed rows. -/
def fsW : FS :=
  { path := "colors.db", ex := true, size := 1024,
    db := .ok { tables := [], dominant := some rowsW } }

/-- A row whose colour text parses to the JSON array `[5]`: a sequence
whose first entry does not support `.get`. -/
def rowArr5 : Row :=
  { file_path := "d.png", status := "extracted", created_at := .vInt 100,
    updated_at := .vInt 500, colors := some "[5]" }

/-- An existing database file whose single row is `rowArr5`. -/
def fsArr5 : FS :=
  { path := "colors.db", ex := true, size := 1024,
    db := .ok { tables := [], dominant := some [rowArr5] } }

/-- A row whose colour text parses to the empty JSON object: valid JSON,
not a sequence, yet `len` succeeds and the value is falsy. -/
def rowObj0 : Row :=
  { file_path := "e.png", status := "extracted", created_at := .vInt 100,
    updated_at := .vInt 500, colors := some "\x7b\x7d" }

/-- An existing database file whose single row is `rowObj0`. -/
def fsObj0 : FS :=
  { path := "colors.db", ex := true, size := 1024,
    db := .ok { tables := [], dominant := some [rowObj0] } }

/-- A row whose colour text parses to the JSON number `5`, on which `len`
raises `TypeError`. -/
def rowNum5 : Row :=
  { file_path := "g.png", status := "pending", created_at := .vInt 100,
    updated_at := .vInt 400, colors := some "5" }

/-- An existing database file holding both colour-block failure modes:
a `len` failure and a first-entry lookup failure. -/
def fsMix : FS :=
  { path := "colors.db", ex := true, size := 1024,
    db := .ok { tables := [], dominant := some [rowArr5, rowNum5] } }

/-- A row whose `created_at` is `NULL`, making `fromtimestamp` raise. -/
def rowBadTs : Row :=
  { file_path := "f.png", status := "pending", created_at := .vNull,
    updated_at := .vInt 600, colors := none }

/-- An existing database file holding the bad-timestamp row (most recent)
and a well-formed row after it. -/
def fsBadTs : FS :=
  { path := "colors.db", ex := true, size := 1024,
    db := .ok { tables := [], dominant := some [rowA, rowBadTs] } }

/-- An existing file on which `sqlite3.connect` itself raises. -/
def fsConnFail : FS :=
  { path := "colors.db", ex := true, size := 3, db := .error "file is not a database" }

/-- An existing database file without the `dominant_colors` table. -/
def fsNoTable : FS :=
  { path := "colors.db", ex := true, size := 7,
    db := .ok { tables := [("other", [("id", "INTEGER")])], dominant := none } }

/-! ## Helper lemmas -/

/-- Scaled to integers, the rounded quotient stays within half a unit. -/
theorem rhe_nat_bounds (n d : Nat) (hd : 0 < d) :
    2 * rhe n d * d ≤ 2 * n + d ∧ 2 * n ≤ 2 * rhe n d * d + d := by
  have hdm := Nat.div_add_mod n d
  have hlt := Nat.mod_lt n hd
  simp only [rhe]
  set q := n / d with hq
  set r := n % d with hr
  clear_value q r
  split_ifs <;> constructor <;> nlinarith

/-- The rounded quotient is within half a unit of the exact quotient. -/
theorem rhe_close (n d : Nat) (hd : 0 < d) :
    |(rhe n d : ℚ) - (n : ℚ) / (d : ℚ)| ≤ 1 / 2 := by
  obtain ⟨hb1, hb2⟩ := rhe_nat_bounds n d hd
  have hdq : (0 : ℚ) < (d : ℚ) := by exact_mod_cast hd
  have h1 : (2 : ℚ) * rhe n d * d ≤ 2 * n + d := by exact_mod_cast hb1
  have h2 : (2 : ℚ) * n ≤ 2 * rhe n d * d + d := by exact_mod_cast hb2
  rw [abs_le]
  constructor
  · have : (n : ℚ) / d ≤ rhe n d + 1 / 2 := by
      rw [div_le_iff₀ hdq]; nlinarith
    linarith
  · have : (rhe n d : ℚ) - 1 / 2 ≤ n / d := by
      rw [le_div_iff₀ hdq]; nlinarith
    linarith

/-- A row with good timestamps stores two integers. -/
theorem goodTs_spec (r : Row) (h : goodTs r = true) :
    ∃ c u, r.created_at = Value.vInt c ∧ r.updated_at = Value.vInt u := by
  cases hc : r.created_at <;> cases hu : r.updated_at <;>
    simp [goodTs, hc, hu] at h <;> exact ⟨_, _, rfl, rfl⟩

/-- A record with good timestamps prints its four info lines and its
colour block and raises nothing. -/
theorem recordEvents_of_goodTs (r : Row) (h : goodTs r = true) :
    recordEvents r =
      (([Line.recentFile r.file_path, Line.recentStatus r.status,
         Line.createdTime (Value.asInt r.created_at),
         Line.updatedTime (Value.asInt r.updated_at)] ++
        colorLines r.colors).map Ev.print, none) := by
  obtain ⟨c, u, hc, hu⟩ := goodTs_spec r h
  simp [recordEvents, hc, hu, fromtimestamp, Value.asInt]

/-- A record with a bad timestamp prints nothing and raises a
non-`sqlite3` exception. -/
theorem recordEvents_of_badTs (r : Row) (h : goodTs r = false) :
    ∃ m, recordEvents r = ([], some (PyErr.otherErr m)) := by
  cases hc : r.created_at <;> cases hu : r.updated_at <;>
    simp [goodTs, hc, hu] at h <;>
    simp [recordEvents, hc, hu, fromtimestamp]

/-- Unfolding the record loop over a record that raises nothing. -/
theorem processRecords_cons_good (r : Row) (rs : List Row) (h : goodTs r = true) :
    processRecords (r :: rs) =
      ((recordEvents r).1 ++ (processRecords rs).1, (processRecords rs).2) := by
  have hrec := recordEvents_of_goodTs r h
  cases hpr : processRecords rs with
  | mk a b => simp [processRecords, hrec, hpr]

/-- The record loop stops at a record with a bad timestamp, printing
nothing for it. -/
theorem processRecords_cons_bad (r : Row) (rs : List Row) (h : goodTs r = false) :
    ∃ m, processRecords (r :: rs) = ([], some (PyErr.otherErr m)) := by
  obtain ⟨m, hm⟩ := recordEvents_of_badTs r h
  exact ⟨m, by simp [processRecords, hm]⟩

/-- When every recent record has good timestamps the loop raises nothing
and concatenates the per-record events. -/
theorem processRecords_ok (rs : List Row) (h : ∀ r ∈ rs, goodTs r = true) :
    processRecords rs = (rs.flatMap fun r => (recordEvents r).1, none) := by
  induction rs with
  | nil => simp [processRecords]
  | cons r rs ih =>
    rw [processRecords_cons_good r rs (h r (List.mem_cons_self r rs)),
      ih fun x hx => h x (List.mem_cons_of_mem _ hx)]
    simp

/-- When some recent record has a bad timestamp the loop raises a
non-`sqlite3` exception. -/
theorem processRecords_err (rs : List Row) (h : ∃ r ∈ rs, goodTs r = false) :
    ∃ m, (processRecords rs).2 = some (PyErr.otherErr m) := by
  induction rs with
  | nil => simp at h
  | cons r rs ih =>
    by_cases hg : goodTs r = true
    · obtain ⟨x, hx, hbad⟩ := h
      rcases List.mem_cons.mp hx with rfl | hx'
      · rw [hg] at hbad; cases hbad
      · obtain ⟨m, hm⟩ := ih ⟨x, hx', hbad⟩
        exact ⟨m, by rw [processRecords_cons_good r rs hg]; exact hm⟩
    · have hg' : goodTs r = false := by revert hg; cases goodTs r <;> simp
      obtain ⟨m, hm⟩ := processRecords_cons_bad r rs hg'
      exact ⟨m, by rw [hm]⟩

/-- Every line the colour block prints is one of its four display
forms. -/
theorem colorLines_shape (c : Option String) (l : Line) (hl : l ∈ colorLines c) :
    recKind l = true := by
  unfold colorLines at hl
  repeat' split at hl
  all_goals simp_all [recKind]
  all_goals rcases hl with rfl | rfl <;> rfl

/-- Every event of the record loop is a print of a record-section line. -/
theorem processRecords_shape (rs : List Row) (e : Ev)
    (he : e ∈ (processRecords rs).1) : ∃ l, e = Ev.print l ∧ recKind l = true := by
  induction rs with
  | nil => simp [processRecords] at he
  | cons r rs ih =>
    by_cases hg : goodTs r = true
    · rw [processRecords_cons_good r rs hg] at he
      rcases List.mem_append.mp he with h1 | h2
      · rw [recordEvents_of_goodTs r hg] at h1
        simp only [List.map_append, List.mem_append, List.mem_map] at h1
        rcases h1 with ⟨l, hl, rfl⟩ | ⟨l, hl, rfl⟩
        · refine ⟨l, rfl, ?_⟩
          simp only [List.mem_cons] at hl
          rcases hl with rfl | rfl | rfl | rfl | h <;> simp [recKind] at *
        · exact ⟨l, rfl, colorLines_shape r.colors l hl⟩
      · exact ih h2
    · have hg' : goodTs r = false := by revert hg; cases goodTs r <;> simp
      obtain ⟨m, hm⟩ := processRecords_cons_bad r rs hg'
      rw [hm] at he
      simp at he

/-- `filePrints` distributes over concatenation. -/
theorem filePrints_append (a b : List Ev) :
    filePrints (a ++ b) = filePrints a ++ filePrints b := by
  simp [filePrints]

/-- The colour block never prints a recent-file line. -/
theorem colorLines_no_file (c : Option String) (l : Line) (hl : l ∈ colorLines c) :
    fileOfEv (Ev.print l) = none := by
  unfold colorLines at hl
  repeat' split at hl
  all_goals simp_all [fileOfEv]
  all_goals rcases hl with rfl | rfl <;> rfl

/-- A record with good timestamps prints exactly one file line, its own
path. -/
theorem filePrints_record_good (r : Row) (h : goodTs r = true) :
    filePrints (recordEvents r).1 = [r.file_path] := by
  have h2 : filePrints ((colorLines r.colors).map Ev.print) = [] := by
    rw [filePrints, List.filterMap_eq_nil_iff]
    intro e he
    rcases List.mem_map.mp he with ⟨l, hl, rfl⟩
    exact colorLines_no_file r.colors l hl
  rw [recordEvents_of_goodTs r h]
  simp only [List.map_append]
  rw [show filePrints _ = _ from filePrints_append _ ((colorLines r.colors).map Ev.print), h2]
  simp [filePrints, List.filterMap_cons, fileOfEv]

/-- The record loop prints exactly the paths of the rows before the first
bad-timestamp row, in order. -/
theorem processRecords_filePrints (rs : List Row) :
    filePrints (processRecords rs).1 = (rs.takeWhile goodTs).map Row.file_path := by
  induction rs with
  | nil => simp [processRecords, filePrints]
  | cons r rs ih =>
    by_cases hg : goodTs r = true
    · rw [processRecords_cons_good r rs hg, filePrints_append, filePrints_record_good r hg,
        ih, List.takeWhile_cons_of_pos hg]
      simp
    · have hg' : goodTs r = false := by revert hg; cases goodTs r <;> simp
      obtain ⟨m, hm⟩ := processRecords_cons_bad r rs hg'
      rw [hm, List.takeWhile_cons_of_neg (by simp [hg'])]
      simp [filePrints]

/-- The schema listing prints no recent-file line. -/
theorem filePrints_schema (d : DB) : filePrints (schemaEvents d) = [] := by
  rw [filePrints, List.filterMap_eq_nil_iff]
  intro e he
  simp only [schemaEvents, List.mem_cons, List.mem_flatMap, List.mem_map] at he
  casesm* _ ∨ _, _ ∧ _, Exists _
  all_goals subst_vars
  all_goals rfl

/-- The status-breakdown lines are no recent-file lines. -/
theorem filePrints_statusMap (rows : List Row) :
    filePrints ((statusList rows).map fun s =>
      Ev.print (Line.statusCount s (countStatus rows s))) = [] := by
  rw [filePrints, List.filterMap_eq_nil_iff]
  intro e he
  rcases List.mem_map.mp he with ⟨s, _, rfl⟩
  rfl

/-- Steps 2–5 of the report print no recent-file line. -/
theorem filePrints_pre (d : DB) (rows : List Row) (size : Nat) :
    filePrints (preEvents d rows size) = [] := by
  rw [preEvents, filePrints_append, filePrints_append, filePrints_append,
    filePrints_schema, filePrints_statusMap]
  simp [filePrints, List.filterMap_cons, fileOfEv]

/-- The success-rate section prints no recent-file line. -/
theorem filePrints_success (rows : List Row) :
    filePrints (successEvents rows).1 = [] := by
  by_cases h : rows.length = 0 <;>
    simp [successEvents, h, filePrints, List.filterMap_cons, fileOfEv]

/-- With a positive total the success-rate section prints its header and
the three percentage lines and raises nothing. -/
theorem successEvents_of_pos (rows : List Row) (h : rows.length ≠ 0) :
    successEvents rows =
      ([Ev.query (whereSql "extracted"), Ev.query (whereSql "pending"),
        Ev.query (whereSql "error"), Ev.print Line.statHeader,
        Ev.print (Line.statLine "extracted" (countStatus rows "extracted")
          (rhe (countStatus rows "extracted" * 1000) rows.length)),
        Ev.print (Line.statLine "pending" (countStatus rows "pending")
          (rhe (countStatus rows "pending" * 1000) rows.length)),
        Ev.print (Line.statLine "error" (countStatus rows "error")
          (rhe (countStatus rows "error" * 1000) rows.length))], none) := by
  simp [successEvents, h]

/-- With a zero total the success-rate section stops at its header with a
`ZeroDivisionError`. -/
theorem successEvents_of_zero (rows : List Row) (h : rows.length = 0) :
    successEvents rows =
      ([Ev.query (whereSql "extracted"), Ev.query (whereSql "pending"),
        Ev.query (whereSql "error"), Ev.print Line.statHeader],
       some (PyErr.otherErr "division by zero")) := by
  simp [successEvents, h]

/-- Body trace on the fully successful path. -/
theorem bodyEvents_success (d : DB) (rows : List Row) (size : Nat)
    (h3 : d.dominant = some rows) (h4 : ∀ r ∈ recentRows rows, goodTs r = true)
    (h5 : rows.length ≠ 0) :
    bodyEvents d size =
      (preEvents d rows size ++
        ((recentRows rows).flatMap fun r => (recordEvents r).1) ++
        (successEvents rows).1 ++ [Ev.closeDb], none) := by
  have hpr := processRecords_ok (recentRows rows) h4
  have hse := successEvents_of_pos rows h5
  simp only [bodyEvents, h3, hpr, hse]

/-- Top-level trace when the body raises nothing. -/
theorem query_shape_ok (fs : FS) (d : DB) (h1 : fs.ex = true) (h2 : fs.db = .ok d)
    (evs : List Ev) (hb : bodyEvents d fs.size = (evs, none)) :
    query_colors_db fs =
      Ev.print (Line.header fs.path) :: Ev.print Line.separator :: Ev.openDb :: evs := by
  simp [query_colors_db, h1, h2, hb]

/-- Top-level trace when the body raises a `sqlite3.Error`. -/
theorem query_shape_sqlite (fs : FS) (d : DB) (evs : List Ev) (m : String)
    (h1 : fs.ex = true) (h2 : fs.db = .ok d)
    (hb : bodyEvents d fs.size = (evs, some (PyErr.sqliteErr m))) :
    query_colors_db fs =
      Ev.print (Line.header fs.path) :: Ev.print Line.separator :: Ev.openDb ::
        (evs ++ [Ev.print (Line.dbError m)]) := by
  simp [query_colors_db, h1, h2, hb]

/-- Top-level trace when the body raises any other exception. -/
theorem query_shape_other (fs : FS) (d : DB) (evs : List Ev) (m : String)
    (h1 : fs.ex = true) (h2 : fs.db = .ok d)
    (hb : bodyEvents d fs.size = (evs, some (PyErr.otherErr m))) :
    query_colors_db fs =
      Ev.print (Line.header fs.path) :: Ev.print Line.separator :: Ev.openDb ::
        (evs ++ [Ev.print (Line.unknownError m)]) := by
  simp [query_colors_db, h1, h2, hb]

/-- Top-level trace when the connection itself raises. -/
theorem query_shape_connfail (fs : FS) (m : String)
    (h1 : fs.ex = true) (h2 : fs.db = .error m) :
    query_colors_db fs =
      [Ev.print (Line.header fs.path), Ev.print Line.separator,
       Ev.print (Line.dbError m)] := by
  simp [query_colors_db, h1, h2]

/-- Full trace of a run in which every step succeeds. -/
theorem query_success (fs : FS) (d : DB) (rows : List Row)
    (h1 : fs.ex = true) (h2 : fs.db = .ok d) (h3 : d.dominant = some rows)
    (h4 : ∀ r ∈ recentRows rows, goodTs r = true) (h5 : rows.length ≠ 0) :
    query_colors_db fs =
      Ev.print (Line.header fs.path) :: Ev.print Line.separator :: Ev.openDb ::
        (preEvents d rows fs.size ++
         ((recentRows rows).flatMap fun r => (recordEvents r).1) ++
         (successEvents rows).1 ++ [Ev.closeDb]) :=
  query_shape_ok fs d h1 h2 _ (bodyEvents_success d rows fs.size h3 h4 h5)

/-- SQLite value comparison is total. -/
theorem valLe_total (a b : Value) : valLe a b = true ∨ valLe b a = true := by
  cases a <;> cases b <;> simp only [valLe] <;>
    first
    | exact Or.inl trivial
    | exact Or.inr trivial
    | (simp only [decide_eq_true_iff]; exact Int.le_total _ _)
    | (simp only [decide_eq_true_iff]; exact le_total _ _)

/-- SQLite value comparison is transitive. -/
theorem valLe_trans (a b c : Value) (h1 : valLe a b = true) (h2 : valLe b c = true) :
    valLe a c = true := by
  cases a <;> cases b <;> cases c <;>
    simp only [valLe, decide_eq_true_iff, Bool.false_eq_true] at h1 h2 ⊢ <;>
    first
    | rfl
    | omega
    | exact le_trans h1 h2

/-- `ORDER BY updated_at DESC` realises a total comparison. -/
theorem rowGe_total (a b : Row) : (rowGe a b || rowGe b a) = true := by
  rw [Bool.or_eq_true]
  exact valLe_total b.updated_at a.updated_at

/-- `ORDER BY updated_at DESC` realises a transitive comparison. -/
theorem rowGe_trans (a b c : Row) (h1 : rowGe a b = true) (h2 : rowGe b c = true) :
    rowGe a c = true :=
  valLe_trans c.updated_at b.updated_at a.updated_at h2 h1

/-- The recent-records list is sorted descending by `updated_at`. -/
theorem recentRows_sorted (rows : List Row) :
    (recentRows rows).Pairwise fun a b => rowGe a b = true := by
  haveI : IsTotal Row fun a b => rowGe a b = true :=
    ⟨fun a b => by have h := rowGe_total a b; rw [Bool.or_eq_true] at h; exact h⟩
  haveI : IsTrans Row fun a b => rowGe a b = true :=
    ⟨fun a b c => rowGe_trans a b c⟩
  exact List.Pairwise.sublist (List.take_sublist 5 _)
    (List.sorted_insertionSort _ rows)

/-- Once the table exists, the body trace starts with steps 2–5 whatever
happens later. -/
theorem bodyEvents_fst_pre (d : DB) (rows : List Row) (size : Nat)
    (h3 : d.dominant = some rows) :
    ∃ tail, (bodyEvents d size).1 = preEvents d rows size ++ tail := by
  rcases hP : processRecords (recentRows rows) with ⟨recEvs, err⟩
  cases err with
  | some e => exact ⟨recEvs, by simp [bodyEvents, h3, hP]⟩
  | none =>
    rcases hS : successEvents rows with ⟨sEvs, sErr⟩
    cases sErr with
    | some e => exact ⟨recEvs ++ sEvs, by simp [bodyEvents, h3, hP, hS]⟩
    | none => exact ⟨recEvs ++ sEvs ++ [Ev.closeDb], by simp [bodyEvents, h3, hP, hS]⟩

/-- Once the table exists, every event of steps 2–5 appears in the
trace, whatever happens later. -/
theorem pre_mem_trace (fs : FS) (d : DB) (rows : List Row) (ev : Ev)
    (h1 : fs.ex = true) (h2 : fs.db = .ok d) (h3 : d.dominant = some rows)
    (hev : ev ∈ preEvents d rows fs.size) : ev ∈ query_colors_db fs := by
  obtain ⟨tail, htail⟩ := bodyEvents_fst_pre d rows fs.size h3
  rcases hB : bodyEvents d fs.size with ⟨evs, err⟩
  rw [hB] at htail
  simp only at htail
  subst htail
  have hin : ev ∈ preEvents d rows fs.size ++ tail := List.mem_append_left _ hev
  cases err with
  | none =>
    rw [query_shape_ok fs d h1 h2 _ hB]
    simp only [List.mem_cons]
    exact .inr (.inr (.inr hin))
  | some e =>
    cases e with
    | sqliteErr m =>
      rw [query_shape_sqlite fs d _ m h1 h2 hB]
      simp only [List.mem_cons, List.mem_append]
      exact .inr (.inr (.inr (.inl (.inl hev))))
    | otherErr m =>
      rw [query_shape_other fs d _ m h1 h2 hB]
      simp only [List.mem_cons, List.mem_append]
      exact .inr (.inr (.inr (.inl (.inl hev))))

/-- Once the table exists, the file paths the trace prints are exactly
those of the recent rows before the first bad-timestamp row. -/
theorem filePrints_trace_dominant (fs : FS) (d : DB) (rows : List Row)
    (h1 : fs.ex = true) (h2 : fs.db = .ok d) (h3 : d.dominant = some rows) :
    filePrints (query_colors_db fs) =
      ((recentRows rows).takeWhile goodTs).map Row.file_path := by
  have hfp := processRecords_filePrints (recentRows rows)
  have hpre := filePrints_pre d rows fs.size
  rcases hP : processRecords (recentRows rows) with ⟨recEvs, err⟩
  rw [hP] at hfp
  cases err with
  | some e =>
    have hb : bodyEvents d fs.size = (preEvents d rows fs.size ++ recEvs, some e) := by
      simp [bodyEvents, h3, hP]
    cases e with
    | sqliteErr m =>
      rw [query_shape_sqlite fs d _ m h1 h2 hb]
      simp only [filePrints, List.filterMap_cons, List.filterMap_append, fileOfEv] at *
      simp [hpre, hfp]
    | otherErr m =>
      rw [query_shape_other fs d _ m h1 h2 hb]
      simp only [filePrints, List.filterMap_cons, List.filterMap_append, fileOfEv] at *
      simp [hpre, hfp]
  | none =>
    rcases hS : successEvents rows with ⟨sEvs, sErr⟩
    have hsf : filePrints sEvs = [] := by
      have h := filePrints_success rows
      rw [hS] at h; exact h
    cases sErr with
    | some e =>
      have hb : bodyEvents d fs.size = (preEvents d rows fs.size ++ recEvs ++ sEvs, some e) := by
        simp [bodyEvents, h3, hP, hS]
      cases e with
      | sqliteErr m =>
        rw [query_shape_sqlite fs d _ m h1 h2 hb]
        simp only [filePrints, List.filterMap_cons, List.filterMap_append, fileOfEv] at *
        simp [hpre, hfp, hsf]
      | otherErr m =>
        rw [query_shape_other fs d _ m h1 h2 hb]
        simp only [filePrints, List.filterMap_cons, List.filterMap_append, fileOfEv] at *
        simp [hpre, hfp, hsf]
    | none =>
      have hb : bodyEvents d fs.size =
          (preEvents d rows fs.size ++ recEvs ++ sEvs ++ [Ev.closeDb], none) := by
        simp [bodyEvents, h3, hP, hS]
      rw [query_shape_ok fs d h1 h2 _ hb]
      simp only [filePrints, List.filterMap_cons, List.filterMap_append, fileOfEv] at *
      simp [hpre, hfp, hsf]

/-- Every schema-listing event is the section header, a catalog query,
a table-name print or a column print. -/
theorem schemaEvents_classify (d : DB) (x : Ev) (hx : x ∈ schemaEvents d) :
    x = Ev.print Line.schemaHeader ∨ (∃ q, x = Ev.query q) ∨
    (∃ t, x = Ev.print (Line.tableName t)) ∨
    (∃ n ty, x = Ev.print (Line.columnInfo n ty)) := by
  simp only [schemaEvents, List.mem_cons, List.mem_flatMap, List.mem_map] at hx
  casesm* _ ∨ _, _ ∧ _, Exists _
  all_goals subst_vars
  all_goals first
  | exact Or.inl rfl
  | exact Or.inr (Or.inl ⟨_, rfl⟩)
  | exact Or.inr (Or.inr (Or.inl ⟨_, rfl⟩))
  | exact Or.inr (Or.inr (Or.inr ⟨_, _, rfl⟩))

/-- No step-2–5 event is part of the success-rate section. -/
theorem pre_no_stat (d : DB) (rows : List Row) (size : Nat) (x : Ev)
    (hx : x ∈ preEvents d rows size) :
    isStat x = false ∧ x ≠ Ev.print Line.statHeader := by
  simp only [preEvents, List.mem_append, List.mem_cons, List.mem_map,
    List.not_mem_nil, or_false] at hx
  rcases hx with ((hx | hx) | ⟨s, -, rfl⟩) | hx
  · rcases schemaEvents_classify d x hx with rfl | ⟨q, rfl⟩ | ⟨t, rfl⟩ | ⟨n, ty, rfl⟩ <;>
      exact ⟨rfl, by simp⟩
  · rcases hx with rfl | rfl | rfl | rfl <;> exact ⟨rfl, by simp⟩
  · exact ⟨rfl, by simp⟩
  · rcases hx with rfl | rfl | rfl <;> exact ⟨rfl, by simp⟩

/-- No record-loop event is part of the success-rate section. -/
theorem processRecords_no_stat (rs : List Row) (x : Ev)
    (hx : x ∈ (processRecords rs).1) :
    isStat x = false ∧ x ≠ Ev.print Line.statHeader := by
  obtain ⟨l, rfl, hk⟩ := processRecords_shape rs x hx
  cases l <;> simp_all [recKind, isStat]

/-- On the fully successful path, every line of a recent record's colour
block appears in the trace. -/
theorem record_line_mem_trace (fs : FS) (d : DB) (rows : List Row) (r : Row) (l : Line)
    (h1 : fs.ex = true) (h2 : fs.db = .ok d) (h3 : d.dominant = some rows)
    (h4 : ∀ x ∈ recentRows rows, goodTs x = true) (h5 : rows.length ≠ 0)
    (hr : r ∈ recentRows rows) (hl : l ∈ colorLines r.colors) :
    Ev.print l ∈ query_colors_db fs := by
  rw [query_success fs d rows h1 h2 h3 h4 h5]
  refine List.mem_cons_of_mem _ (List.mem_cons_of_mem _ (List.mem_cons_of_mem _ ?_))
  refine List.mem_append_left _ (List.mem_append_left _ (List.mem_append_right _ ?_))
  refine List.mem_flatMap.mpr ⟨r, hr, ?_⟩
  rw [recordEvents_of_goodTs r (h4 r hr)]
  exact List.mem_map_of_mem _ (List.mem_append_right _ hl)

/-! ## Claim theorems -/

/-- C3: for every path that does not resolve to an existing file, the tool
prints only the not-found message naming the path, opens no connection,
runs no query, and performs no further step. -/
theorem missing_file_prints_and_stops (fs : FS) (h : fs.ex = false) :
    query_colors_db fs = [Ev.print (Line.notFound fs.path)] ∧
    Ev.openDb ∉ query_colors_db fs ∧
    (∀ q, Ev.query q ∉ query_colors_db fs) ∧
    Ev.closeDb ∉ query_colors_db fs := by
  have ht : query_colors_db fs = [Ev.print (Line.notFound fs.path)] := by
    simp [query_colors_db, h]
  refine ⟨ht, ?_, ?_, ?_⟩ <;> simp [ht]

/-- Witness for C3 at the concrete missing path. -/
theorem missing_file_prints_and_stops_witness :
    query_colors_db fsMissing = [Ev.print (Line.notFound "C:/missing/colors.db")] ∧
    Ev.openDb ∉ query_colors_db fsMissing ∧
    Ev.query countSql ∉ query_colors_db fsMissing :=
  ⟨(missing_file_prints_and_stops fsMissing rfl).1,
   (missing_file_prints_and_stops fsMissing rfl).2.1,
   (missing_file_prints_and_stops fsMissing rfl).2.2.1 countSql⟩

/-- C8: for every database file that passes the existence check and whose
table survives the opening queries, the printed file size is the byte
size over 1024, carried in centi-KB (two decimal places), and that
centi-KB value is within half a hundredth of the exact quotient. -/
theorem file_size_in_kib (fs : FS) (d : DB) (rows : List Row)
    (h1 : fs.ex = true) (h2 : fs.db = .ok d) (h3 : d.dominant = some rows) :
    Ev.print (Line.fileSizeKB (rhe (fs.size * 100) 1024)) ∈ query_colors_db fs ∧
    |(rhe (fs.size * 100) 1024 : ℚ) / 100 - (fs.size : ℚ) / 1024| ≤ 1 / 200 := by
  constructor
  · refine pre_mem_trace fs d rows _ h1 h2 h3 ?_
    simp [preEvents]
  · have h := rhe_close (fs.size * 100) 1024 (by norm_num)
    have key : (rhe (fs.size * 100) 1024 : ℚ) / 100 - (fs.size : ℚ) / 1024 =
        ((rhe (fs.size * 100) 1024 : ℚ) - ((fs.size * 100 : Nat) : ℚ) / 1024) / 100 := by
      push_cast
      ring
    rw [key, abs_div]
    rw [show |(100 : ℚ)| = 100 by norm_num]
    linarith

/-- Witness for C8 on the empty 2048-byte database. -/
theorem file_size_in_kib_witness :
    Ev.print (Line.fileSizeKB (rhe (fsEmpty.size * 100) 1024)) ∈ query_colors_db fsEmpty ∧
    |(rhe (fsEmpty.size * 100) 1024 : ℚ) / 100 - (fsEmpty.size : ℚ) / 1024| ≤ 1 / 200 :=
  file_size_in_kib fsEmpty dbEmpty [] rfl rfl rfl

/-- C5: the trace never prints more than 5 recent-file lines; the
recent-records selection has at most 5 rows, is sorted descending by
`updated_at`, exhausts the table when it has fewer than 5 rows, and on a
well-formed database the printed file lines are exactly the selected
rows in order. -/
theorem recent_files_limited_sorted (fs : FS) (rows : List Row) :
    (filePrints (query_colors_db fs)).length ≤ 5 ∧
    (recentRows rows).length ≤ 5 ∧
    (recentRows rows).Pairwise (fun a b => rowGe a b = true) ∧
    (rows.length < 5 → (recentRows rows).Perm rows) ∧
    (∀ d, fs.ex = true → fs.db = .ok d → d.dominant = some rows →
      (∀ r ∈ recentRows rows, goodTs r = true) →
      filePrints (query_colors_db fs) = (recentRows rows).map Row.file_path) := by
  refine ⟨?_, List.length_take_le 5 _, recentRows_sorted rows, ?_, ?_⟩
  · by_cases hex : fs.ex = true
    · cases hdb : fs.db with
      | error m =>
        rw [query_shape_connfail fs m hex hdb]
        simp [filePrints, List.filterMap_cons, fileOfEv]
      | ok d =>
        cases hdom : d.dominant with
        | none =>
          have hb : bodyEvents d fs.size =
              (schemaEvents d ++ [Ev.query countSql],
               some (PyErr.sqliteErr "no such table: dominant_colors")) := by
            simp [bodyEvents, hdom]
          rw [query_shape_sqlite fs d _ _ hex hdb hb]
          simp [filePrints, List.filterMap_cons, List.filterMap_append, fileOfEv,
            show (schemaEvents d).filterMap fileOfEv = [] from filePrints_schema d]
        | some rows2 =>
          rw [filePrints_trace_dominant fs d rows2 hex hdb hdom]
          calc (((recentRows rows2).takeWhile goodTs).map Row.file_path).length
              ≤ (recentRows rows2).length := by
                rw [List.length_map]
                exact (List.takeWhile_sublist goodTs).length_le
            _ ≤ 5 := List.length_take_le 5 _
    · have hex' : fs.ex = false := by revert hex; cases fs.ex <;> simp
      simp [query_colors_db, hex', filePrints, List.filterMap_cons, fileOfEv]
  · intro hlt
    rw [recentRows,
      List.take_of_length_le (by rw [List.length_insertionSort]; omega)]
    exact List.perm_insertionSort _ rows
  · intro d hex hdb hdom hgood
    rw [filePrints_trace_dominant fs d rows hex hdb hdom,
      List.takeWhile_eq_self_iff.mpr hgood]

/-- Witness for C5 on the three-row database. -/
theorem recent_files_limited_sorted_witness :
    (filePrints (query_colors_db fsW)).length ≤ 5 ∧
    (recentRows rowsW).length ≤ 5 ∧
    (recentRows rowsW).Pairwise (fun a b => rowGe a b = true) ∧
    (recentRows rowsW).Perm rowsW ∧
    filePrints (query_colors_db fsW) = (recentRows rowsW).map Row.file_path := by
  obtain ⟨a, b, c, dp, e⟩ := recent_files_limited_sorted fsW rowsW
  exact ⟨a, b, c, dp (by decide), e _ rfl rfl rfl (by decide)⟩

/-- C1 (the code contradicts the claim): on an empty `dominant_colors`
table the percentage computation divides the `extracted` count by the
zero total; the `ZeroDivisionError` is caught only by the generic
handler, so the run prints the section header and then the unknown-error
line and no percentage output at all. -/
theorem empty_table_division_error :
    (query_colors_db fsEmpty).getLast? =
      some (Ev.print (Line.unknownError "division by zero")) ∧
    Ev.print Line.statHeader ∈ query_colors_db fsEmpty ∧
    hasStatLine (query_colors_db fsEmpty) = false :=
  ⟨by decide, by decide, by decide⟩

/-- C2: on a well-formed database with a positive total whose rows all
carry one of the three classified statuses, the success-rate section
prints the three per-status counts — which sum to the total — and for
each the percentage count/total·100 in deci-percent units (one decimal
place), each within half a deci-percent of the exact value. -/
theorem success_rates_printed (fs : FS) (d : DB) (rows : List Row)
    (h1 : fs.ex = true) (h2 : fs.db = .ok d) (h3 : d.dominant = some rows)
    (h4 : ∀ r ∈ recentRows rows, goodTs r = true) (h5 : rows.length ≠ 0)
    (h6 : countStatus rows "extracted" + countStatus rows "pending" +
      countStatus rows "error" = rows.length) :
    (Ev.print (Line.statLine "extracted" (countStatus rows "extracted")
        (rhe (countStatus rows "extracted" * 1000) rows.length)) ∈ query_colors_db fs ∧
     Ev.print (Line.statLine "pending" (countStatus rows "pending")
        (rhe (countStatus rows "pending" * 1000) rows.length)) ∈ query_colors_db fs ∧
     Ev.print (Line.statLine "error" (countStatus rows "error")
        (rhe (countStatus rows "error" * 1000) rows.length)) ∈ query_colors_db fs) ∧
    countStatus rows "extracted" + countStatus rows "pending" +
      countStatus rows "error" = rows.length ∧
    (∀ c : Nat, |(rhe (c * 1000) rows.length : ℚ) -
        (c : ℚ) / (rows.length : ℚ) * 1000| ≤ 1 / 2) := by
  refine ⟨?_, h6, ?_⟩
  · rw [query_success fs d rows h1 h2 h3 h4 h5, successEvents_of_pos rows h5]
    refine ⟨?_, ?_, ?_⟩ <;> simp
  · intro c
    have h := rhe_close (c * 1000) rows.length (Nat.pos_of_ne_zero h5)
    have hc : ((c * 1000 : Nat) : ℚ) / (rows.length : ℚ) =
        (c : ℚ) / (rows.length : ℚ) * 1000 := by
      push_cast; ring
    rw [hc] at h
    exact h

/-- Witness for C2 on the three-row database (one row per status). -/
theorem success_rates_printed_witness :
    Ev.print (Line.statLine "extracted" (countStatus rowsW "extracted")
      (rhe (countStatus rowsW "extracted" * 1000) rowsW.length)) ∈ query_colors_db fsW ∧
    countStatus rowsW "extracted" + countStatus rowsW "pending" +
      countStatus rowsW "error" = rowsW.length ∧
    |(rhe (1 * 1000) rowsW.length : ℚ) -
      (1 : ℚ) / (rowsW.length : ℚ) * 1000| ≤ 1 / 2 := by
  obtain ⟨⟨m1, -, -⟩, hsum, hb⟩ := success_rates_printed fsW (DB.mk [] (some rowsW)) rowsW
    rfl rfl rfl (by decide) (by decide) (by decide)
  exact ⟨m1, hsum, hb 1⟩

/-- C7: a recent record whose colour text is nonempty, differs from the
literal `[]`, and fails to parse as JSON prints the 50-character
truncation with ellipsis; the failure is recovered inside the loop — the
body raises nothing and the success-rate section and the close still
run. -/
theorem malformed_colors_recovered (fs : FS) (d : DB) (rows : List Row) (r : Row) (s : String)
    (h1 : fs.ex = true) (h2 : fs.db = .ok d) (h3 : d.dominant = some rows)
    (h4 : ∀ x ∈ recentRows rows, goodTs x = true) (h5 : rows.length ≠ 0)
    (hr : r ∈ recentRows rows) (hc : r.colors = some s)
    (hs1 : ¬s = "") (hs2 : ¬s = "[]") (hp : json_loads s = none) :
    Ev.print (Line.rawColors (s.take 50 ++ "...")) ∈ query_colors_db fs ∧
    (bodyEvents d fs.size).2 = none ∧
    Ev.print Line.statHeader ∈ query_colors_db fs ∧
    Ev.closeDb ∈ query_colors_db fs := by
  have hcl : colorLines r.colors = [Line.rawColors (s.take 50 ++ "...")] := by
    rw [hc]; simp [colorLines, hs1, hs2, hp]
  have htrace := query_success fs d rows h1 h2 h3 h4 h5
  refine ⟨?_, ?_, ?_, ?_⟩
  · exact record_line_mem_trace fs d rows r _ h1 h2 h3 h4 h5 hr (by rw [hcl]; simp)
  · rw [bodyEvents_success d rows fs.size h3 h4 h5]
  · rw [htrace, successEvents_of_pos rows h5]
    simp
  · rw [htrace]
    simp

/-- Witness for C7 on the row whose colour text is `not valid json`. -/
theorem malformed_colors_recovered_witness :
    Ev.print (Line.rawColors ("not valid json".take 50 ++ "...")) ∈ query_colors_db fsW ∧
    (bodyEvents (DB.mk [] (some rowsW)) fsW.size).2 = none ∧
    Ev.print Line.statHeader ∈ query_colors_db fsW ∧
    Ev.closeDb ∈ query_colors_db fsW :=
  malformed_colors_recovered fsW (DB.mk [] (some rowsW)) rowsW rowB "not valid json"
    rfl rfl rfl (by decide) (by decide) (by decide) rfl (by decide) (by decide) rfl

set_option maxRecDepth 4096 in
/-- C6 counterexample: the colour text `[5]` parses to a JSON sequence,
yet the report prints no primary-hex line for its record — the count
line is followed by the raw truncation fallback instead. -/
theorem seq_nonobject_first_no_hex :
    json_loads "[5]" = some (Json.jarr [Json.jnum 5]) ∧
    hasHexPrint (query_colors_db fsArr5) = false ∧
    Ev.print (Line.colorCount 1) ∈ query_colors_db fsArr5 ∧
    Ev.print (Line.rawColors ("[5]" ++ "...")) ∈ query_colors_db fsArr5 :=
  ⟨rfl, by decide, by decide, by decide⟩

/-- C6 (amended): for every recent record whose colour text parses as a
nonempty JSON sequence whose first entry is an object, the report prints
the entry count and the `hex` field of the first entry (the string
`N/A` when the field is absent); records with absent colours or the
literal `[]` print the no-colour-data placeholder. -/
theorem color_seq_object_first_prints (fs : FS) (d : DB) (rows : List Row)
    (h1 : fs.ex = true) (h2 : fs.db = .ok d) (h3 : d.dominant = some rows)
    (h4 : ∀ x ∈ recentRows rows, goodTs x = true) (h5 : rows.length ≠ 0) :
    (∀ r ∈ recentRows rows, ∀ s fields rest,
      r.colors = some s → ¬s = "" → ¬s = "[]" →
      json_loads s = some (Json.jarr (Json.jobj fields :: rest)) →
      Ev.print (Line.colorCount (rest.length + 1)) ∈ query_colors_db fs ∧
      Ev.print (Line.primaryHex
        (pyStr ((fields.lookup "hex").getD (Json.jstr "N/A")))) ∈ query_colors_db fs) ∧
    (∀ r ∈ recentRows rows, r.colors = none ∨ r.colors = some "[]" →
      Ev.print Line.noColorData ∈ query_colors_db fs) := by
  constructor
  · intro r hr s fields rest hc hs1 hs2 hp
    have hcl : colorLines r.colors =
        [Line.colorCount (rest.length + 1),
         Line.primaryHex (pyStr ((fields.lookup "hex").getD (Json.jstr "N/A")))] := by
      rw [hc]
      simp [colorLines, hs1, hs2, hp, pyLen, pyTruthy, pyIndex0, pyGetHex]
    constructor <;>
      exact record_line_mem_trace fs d rows r _ h1 h2 h3 h4 h5 hr (by rw [hcl]; simp)
  · intro r hr hcn
    have hcl : colorLines r.colors = [Line.noColorData] := by
      rcases hcn with h | h <;> rw [h] <;> simp [colorLines]
    exact record_line_mem_trace fs d rows r _ h1 h2 h3 h4 h5 hr (by rw [hcl]; simp)

/-- Witness for the amended C6: count 1 and primary hex `#FF0000` for the
one-colour row, and the placeholder for the row with no colour data. -/
theorem color_seq_object_first_prints_witness :
    Ev.print (Line.colorCount 1) ∈ query_colors_db fsW ∧
    Ev.print (Line.primaryHex "#FF0000") ∈ query_colors_db fsW ∧
    Ev.print Line.noColorData ∈ query_colors_db fsW := by
  obtain ⟨hA, hB⟩ := color_seq_object_first_prints fsW (DB.mk [] (some rowsW)) rowsW
    rfl rfl rfl (by decide) (by decide)
  obtain ⟨m1, m2⟩ := hA rowA (by decide) "[\x7b\"hex\":\"#FF0000\"\x7d]"
    [("hex", Json.jstr "#FF0000")] [] rfl (by decide) (by decide) rfl
  exact ⟨m1, m2, hB rowC (by decide) (Or.inl rfl)⟩

/-- C9 counterexample: the empty JSON object is valid JSON and not a
sequence, yet the report prints a count line and no truncation fallback
for its record. -/
theorem json_object_no_fallback :
    json_loads "\x7b\x7d" = some (Json.jobj []) ∧
    hasRawPrint (query_colors_db fsObj0) = false ∧
    Ev.print (Line.colorCount 0) ∈ query_colors_db fsObj0 :=
  ⟨rfl, by decide, by decide⟩

/-- C9 (amended): the truncation fallback is taken on any failure inside
the colour block — when `len` fails only the raw line is printed, and
when the parsed value is truthy and indexing or the `hex` lookup fails
the count line is printed and then the raw line; a parsed value on which
nothing fails (such as the empty object) prints only its count line.  In
every case the loop continues and the body finishes normally. -/
theorem color_block_failure_fallback (fs : FS) (d : DB) (rows : List Row)
    (h1 : fs.ex = true) (h2 : fs.db = .ok d) (h3 : d.dominant = some rows)
    (h4 : ∀ x ∈ recentRows rows, goodTs x = true) (h5 : rows.length ≠ 0) :
    (∀ r ∈ recentRows rows, ∀ s j, r.colors = some s → ¬s = "" → ¬s = "[]" →
      json_loads s = some j → pyLen j = none →
      Ev.print (Line.rawColors (s.take 50 ++ "...")) ∈ query_colors_db fs) ∧
    (∀ r ∈ recentRows rows, ∀ s j n, r.colors = some s → ¬s = "" → ¬s = "[]" →
      json_loads s = some j → pyLen j = some n → pyTruthy j = true →
      (pyIndex0 j).bind pyGetHex = none →
      Ev.print (Line.colorCount n) ∈ query_colors_db fs ∧
      Ev.print (Line.rawColors (s.take 50 ++ "...")) ∈ query_colors_db fs) ∧
    (bodyEvents d fs.size).2 = none := by
  refine ⟨?_, ?_, by rw [bodyEvents_success d rows fs.size h3 h4 h5]⟩
  · intro r hr s j hc hs1 hs2 hp hlen
    have hcl : colorLines r.colors = [Line.rawColors (s.take 50 ++ "...")] := by
      rw [hc]
      simp [colorLines, hs1, hs2, hp, hlen]
    exact record_line_mem_trace fs d rows r _ h1 h2 h3 h4 h5 hr (by rw [hcl]; simp)
  · intro r hr s j n hc hs1 hs2 hp hlen htr hbind
    have hcl : colorLines r.colors =
        [Line.colorCount n, Line.rawColors (s.take 50 ++ "...")] := by
      rw [hc]
      cases hix : pyIndex0 j with
      | none => simp [colorLines, hs1, hs2, hp, hlen, htr, hix]
      | some x =>
        rw [hix] at hbind
        simp only [Option.some_bind] at hbind
        simp [colorLines, hs1, hs2, hp, hlen, htr, hix, hbind]
    constructor <;>
      exact record_line_mem_trace fs d rows r _ h1 h2 h3 h4 h5 hr (by rw [hcl]; simp)

/-- Witness for the amended C9: the `len` failure on the JSON number `5`
and the lookup failure on `[5]`, in one database whose report
completes. -/
theorem color_block_failure_fallback_witness :
    Ev.print (Line.rawColors ("5".take 50 ++ "...")) ∈ query_colors_db fsMix ∧
    (Ev.print (Line.colorCount 1) ∈ query_colors_db fsMix ∧
     Ev.print (Line.rawColors ("[5]".take 50 ++ "...")) ∈ query_colors_db fsMix) ∧
    (bodyEvents (DB.mk [] (some [rowArr5, rowNum5])) fsMix.size).2 = none := by
  obtain ⟨hA, hB, hC⟩ := color_block_failure_fallback fsMix
    (DB.mk [] (some [rowArr5, rowNum5])) [rowArr5, rowNum5]
    rfl rfl rfl (by decide) (by decide)
  refine ⟨hA rowNum5 (by decide) "5" (Json.jnum 5) rfl (by decide) (by decide) rfl rfl, ?_, hC⟩
  exact hB rowArr5 (by decide) "[5]" (Json.jarr [Json.jnum 5]) 1 rfl (by decide) (by decide)
    rfl rfl rfl rfl

/-- C4: a database-layer error — at open or at the first query on the
missing table — is caught at the top level and reported with its detail
after the events already produced, skipping every remaining step, and
any other exception raised by the body is likewise caught and reported
with the generic unknown-error line; the trace is total, so nothing
propagates to the caller. -/
theorem top_level_error_dispatch (fs : FS) (h : fs.ex = true) :
    (∀ m, fs.db = .error m → query_colors_db fs =
      [Ev.print (Line.header fs.path), Ev.print Line.separator,
       Ev.print (Line.dbError m)]) ∧
    (∀ d, fs.db = .ok d → d.dominant = none →
      query_colors_db fs =
        Ev.print (Line.header fs.path) :: Ev.print Line.separator :: Ev.openDb ::
          (schemaEvents d ++ [Ev.query countSql]
            ++ [Ev.print (Line.dbError "no such table: dominant_colors")]) ∧
      (∀ n, Ev.print (Line.totalCount n) ∉ query_colors_db fs) ∧
      hasStatLine (query_colors_db fs) = false ∧
      filePrints (query_colors_db fs) = []) ∧
    (∀ d evs m, fs.db = .ok d →
      bodyEvents d fs.size = (evs, some (PyErr.sqliteErr m)) →
      query_colors_db fs =
        Ev.print (Line.header fs.path) :: Ev.print Line.separator :: Ev.openDb ::
          (evs ++ [Ev.print (Line.dbError m)])) ∧
    (∀ d evs m, fs.db = .ok d →
      bodyEvents d fs.size = (evs, some (PyErr.otherErr m)) →
      query_colors_db fs =
        Ev.print (Line.header fs.path) :: Ev.print Line.separator :: Ev.openDb ::
          (evs ++ [Ev.print (Line.unknownError m)])) := by
  refine ⟨?_, ?_, ?_, ?_⟩
  · intro m h2
    exact query_shape_connfail fs m h h2
  · intro d h2 hdom
    have hb : bodyEvents d fs.size =
        (schemaEvents d ++ [Ev.query countSql],
         some (PyErr.sqliteErr "no such table: dominant_colors")) := by
      simp [bodyEvents, hdom]
    have ht := query_shape_sqlite fs d _ _ h h2 hb
    refine ⟨by rw [ht], ?_, ?_, ?_⟩
    · intro n hmem
      rw [ht] at hmem
      simp only [List.mem_cons, List.mem_append, List.not_mem_nil, or_false] at hmem
      rcases hmem with hh | hh | hh | (hh | hh) | hh
      · simp at hh
      · simp at hh
      · simp at hh
      · rcases schemaEvents_classify d _ hh with hh2 | ⟨q, hh2⟩ | ⟨t, hh2⟩ | ⟨a, b, hh2⟩ <;>
          simp at hh2
      · simp at hh
      · simp at hh
    · rw [ht, hasStatLine, List.any_eq_false]
      intro x hx
      simp only [Bool.not_eq_true]
      simp only [List.mem_cons, List.mem_append, List.not_mem_nil, or_false] at hx
      rcases hx with rfl | rfl | rfl | (hh | rfl) | rfl
      · rfl
      · rfl
      · rfl
      · rcases schemaEvents_classify d _ hh with rfl | ⟨q, rfl⟩ | ⟨t, rfl⟩ | ⟨a, b, rfl⟩ <;>
          rfl
      · rfl
      · rfl
    · rw [ht]
      simp [filePrints, List.filterMap_cons, List.filterMap_append, fileOfEv,
        show (schemaEvents d).filterMap fileOfEv = [] from filePrints_schema d]
  · intro d evs m h2 hb
    exact query_shape_sqlite fs d evs m h h2 hb
  · intro d evs m h2 hb
    exact query_shape_other fs d evs m h h2 hb

/-- Witness for C4 on the database without a `dominant_colors` table. -/
theorem top_level_error_dispatch_witness :
    query_colors_db fsNoTable =
      Ev.print (Line.header "colors.db") :: Ev.print Line.separator :: Ev.openDb ::
        (schemaEvents (DB.mk [("other", [("id", "INTEGER")])] none) ++ [Ev.query countSql]
          ++ [Ev.print (Line.dbError "no such table: dominant_colors")]) ∧
    hasStatLine (query_colors_db fsNoTable) = false ∧
    filePrints (query_colors_db fsNoTable) = [] := by
  obtain ⟨-, h2, -, -⟩ := top_level_error_dispatch fsNoTable rfl
  obtain ⟨ha, -, hb, hc⟩ := h2 _ rfl rfl
  exact ⟨ha, hb, hc⟩

/-- C10: a `NULL` or non-integer `created_at`/`updated_at` in one of the
5 most recent records aborts the whole remaining report: the records
before it print, the failing and later records do not, the success-rate
section never starts, and the run ends with the generic unknown-error
line. -/
theorem timestamp_error_aborts (fs : FS) (d : DB) (rows : List Row)
    (h1 : fs.ex = true) (h2 : fs.db = .ok d) (h3 : d.dominant = some rows)
    (hbad : ∃ r ∈ recentRows rows, goodTs r = false) :
    (∃ m, (query_colors_db fs).getLast? = some (Ev.print (Line.unknownError m))) ∧
    Ev.print Line.statHeader ∉ query_colors_db fs ∧
    hasStatLine (query_colors_db fs) = false ∧
    filePrints (query_colors_db fs) =
      ((recentRows rows).takeWhile goodTs).map Row.file_path := by
  obtain ⟨m, hm⟩ := processRecords_err (recentRows rows) hbad
  rcases hP : processRecords (recentRows rows) with ⟨recEvs, err⟩
  rw [hP] at hm
  simp only at hm
  subst hm
  have hrecEvs : recEvs = (processRecords (recentRows rows)).1 := by rw [hP]
  have hb : bodyEvents d fs.size =
      (preEvents d rows fs.size ++ recEvs, some (PyErr.otherErr m)) := by
    simp [bodyEvents, h3, hP]
  have ht := query_shape_other fs d _ m h1 h2 hb
  refine ⟨⟨m, ?_⟩, ?_, ?_, filePrints_trace_dominant fs d rows h1 h2 h3⟩
  · rw [ht, show Ev.print (Line.header fs.path) :: Ev.print Line.separator :: Ev.openDb ::
        (preEvents d rows fs.size ++ recEvs ++ [Ev.print (Line.unknownError m)]) =
        (Ev.print (Line.header fs.path) :: Ev.print Line.separator :: Ev.openDb ::
          (preEvents d rows fs.size ++ recEvs)) ++ [Ev.print (Line.unknownError m)]
        from by simp]
    exact List.getLast?_concat _
  · rw [ht]
    intro hmem
    simp only [List.mem_cons, List.mem_append, List.not_mem_nil, or_false] at hmem
    rcases hmem with hh | hh | hh | (hh | hh) | hh
    · simp at hh
    · simp at hh
    · simp at hh
    · exact (pre_no_stat d rows fs.size _ hh).2 rfl
    · rw [hrecEvs] at hh
      exact (processRecords_no_stat _ _ hh).2 rfl
    · simp at hh
  · rw [ht, hasStatLine, List.any_eq_false]
    intro x hx
    simp only [Bool.not_eq_true]
    simp only [List.mem_cons, List.mem_append, List.not_mem_nil, or_false] at hx
    rcases hx with rfl | rfl | rfl | (hh | hh) | rfl
    · rfl
    · rfl
    · rfl
    · exact (pre_no_stat d rows fs.size _ hh).1
    · rw [hrecEvs] at hh
      exact (processRecords_no_stat _ _ hh).1
    · rfl

/-- Witness for C10 on the database whose most recent record has a
`NULL` `created_at`. -/
theorem timestamp_error_aborts_witness :
    (∃ m, (query_colors_db fsBadTs).getLast? =
      some (Ev.print (Line.unknownError m))) ∧
    Ev.print Line.statHeader ∉ query_colors_db fsBadTs ∧
    hasStatLine (query_colors_db fsBadTs) = false ∧
    filePrints (query_colors_db fsBadTs) =
      ((recentRows [rowA, rowBadTs]).takeWhile goodTs).map Row.file_path :=
  timestamp_error_aborts fsBadTs (DB.mk [] (some [rowA, rowBadTs])) [rowA, rowBadTs]
    rfl rfl rfl ⟨rowBadTs, by decide, by decide⟩

end AuroraColors
